import Mathlib

/-!
Shallow embedding of the CashFlow2026 budgeting app (`src/app.py`) and proofs
about its summary engine, currency formatter and persistence routine.

Monetary amounts are modelled as rationals.  A pandas DataFrame is modelled as
a list of rows together with the list of column names that are present; a cell
of a monthly column is a `Cell` (a parseable numeric value, non-numeric text,
or a missing value), mirroring what `pd.to_numeric(..., errors="coerce")`
distinguishes.
-/

namespace CashFlow

set_option maxHeartbeats 1000000

/-- Twelve-month series of amounts, indexed by month position (app.py `MONTHS`
order). -/
abbrev Series := Fin 12 → ℚ

/-- The month column labels, from `MONTHS` in app.py. -/
def MONTHS : List String :=
  ["Jan/26", "Feb/26", "Mar/26", "Apr/26", "May/26", "Jun/26",
   "Jul/26", "Aug/26", "Sep/26", "Oct/26", "Nov/26", "Dec/26"]

/-- Label of the i-th month column. -/
def monthName (i : Fin 12) : String := MONTHS.getD i ""

/-- `INITIAL_BALANCE` in app.py (25_542_000.00). -/
def INITIAL_BALANCE : ℚ := 25542000

/-- `INFLOW_CATEGORIES` in app.py: ordered categories, each with its ordered
subcategory list. -/
def INFLOW_CATEGORIES : List (String × List String) :=
  [("Football Revenues",
    ["Awards", "Broadcast", "Matchday", "Marketing & Commercial", "Sponsor",
     "Space Lease", "Fan Program", "Licensing", "Merchandising", "Social Medias"])]

/-- `OUTFLOW_CATEGORIES` in app.py. -/
def OUTFLOW_CATEGORIES : List (String × List String) :=
  [("Payroll Men’s Football",
    ["Salary (M)", "Image Right", "Signing Fee (Image)", "Payroll Taxes (M)",
     "Professional Services (M)", "Merit Payments"]),
   ("Payroll Youth & Women’s Football",
    ["Salary (YW)", "Payroll Taxes (YW)", "Professional Services (YW)"]),
   ("Payroll Corporate",
    ["Salary (Corporate)", "Payroll Taxes (Corporate)",
     "Professional Services (Corporate)"]),
   ("Other Payroll Expenses", ["Benefits"]),
   ("Suppliers",
    ["General Suppliers", "Matchday", "Matchday Suppliers",
     "Logistics Expenses", "Utility Bills", "Merchandising"]),
   ("Taxes", ["Football Specific Tribute (TEF)", "Other Taxes"])]

/-- Keys of the `inflow_subcategories` accumulator dict in `compute_summary`
(all inflow subcategories, in declaration order). -/
def inflowSubcatList : List String := INFLOW_CATEGORIES.flatMap Prod.snd

/-- Keys of the `outflow_subcategories` accumulator dict. -/
def outflowSubcatList : List String := OUTFLOW_CATEGORIES.flatMap Prod.snd

/-- One cell of a monthly column.  `num q` is a value `pd.to_numeric` accepts
(a number, or numeric text, carried as its parsed value); `text` is
non-numeric content that `errors="coerce"` turns into NaN; `na` is a missing
value. -/
inductive Cell where
  | num (q : ℚ)
  | text
  | na
deriving DecidableEq

/-- Numeric reading of a cell: the effect of
`pd.to_numeric(..., errors="coerce").fillna(0.0)` on it. -/
def Cell.toNum : Cell → ℚ
  | .num q => q
  | .text => 0
  | .na => 0

/-- One DataFrame row of the line-item table: the `Tipo`, `Categoria`,
`Subcategoria` and `Item` columns plus the twelve month cells.  `item = none`
models a NaN in the `Item` column (what `dropna(subset=["Item"])` removes). -/
structure Row where
  tipo : String
  categoria : String
  subcategoria : String
  item : Option String
  months : Fin 12 → Cell

instance : DecidableEq Row := fun a b =>
  decidable_of_iff
    (a.tipo = b.tipo ∧ a.categoria = b.categoria ∧ a.subcategoria = b.subcategoria
      ∧ a.item = b.item ∧ a.months = b.months)
    (by cases a; cases b; simp)

/-- A pandas DataFrame of line items: the set of columns present, and the
rows.  Fields of a `Row` whose column is absent are dead data; the engine
only ever reads them after filling absent columns in. -/
structure DataFrame where
  columns : List String
  rows : List Row
deriving DecidableEq

/-- The `required_columns` set checked at the top of `compute_summary`
(note: it does not include `Item`). -/
def required_columns : List String := ["Tipo", "Categoria", "Subcategoria"] ++ MONTHS

/-- Columns of `required_columns` that the input frame is missing. -/
def missingColumns (cols : List String) : List String :=
  required_columns.filter (fun c => !(cols.contains c))

/-- Effect on one row of `outflow_df[column] = ""` for every missing required
column: text fields of a filled column become the empty string, month cells of
a filled column become the string `""` (non-numeric, hence `Cell.text`). -/
def fillRow (missing : List String) (r : Row) : Row :=
  { tipo := if "Tipo" ∈ missing then "" else r.tipo,
    categoria := if "Categoria" ∈ missing then "" else r.categoria,
    subcategoria := if "Subcategoria" ∈ missing then "" else r.subcategoria,
    item := r.item,
    months := fun i => if monthName i ∈ missing then Cell.text else r.months i }

/-- The in-place column fill performed by lines 226-229 of app.py: every
missing required column is added (its cells blank).  The result is the state
of the DataFrame of the caller after `compute_summary` returns. -/
def fillMissing (df : DataFrame) : DataFrame :=
  { columns := df.columns ++ missingColumns df.columns,
    rows := df.rows.map (fillRow (missingColumns df.columns)) }

/-- Whitespace characters removed by `str.strip()` of Python. -/
def isPySpace (c : Char) : Bool :=
  c == ' ' || c == '\t' || c == '\n' || c == '\r' || c == '\x0b' || c == '\x0c'

/-- The `str.strip()` of Python: remove leading and trailing whitespace. -/
def pyStrip (s : String) : String :=
  String.mk (((s.toList.dropWhile isPySpace).reverse.dropWhile isPySpace).reverse)

/-- The `str.casefold()` of Python: for the ASCII strings compared here, lowercase
every character. -/
def pyCasefold (s : String) : String := String.mk (s.toList.map Char.toLower)

/-- `inflow_mask` for one row: `Tipo.str.strip().str.casefold() == "inflow"`. -/
def inflowMask (r : Row) : Bool := pyCasefold (pyStrip r.tipo) == "inflow"

/-- `outflow_mask` for one row. -/
def outflowMask (r : Row) : Bool := pyCasefold (pyStrip r.tipo) == "outflow"

/-- Rows selected by `mask = dir_mask & (outflow_df["Subcategoria"] == subcategory)`. -/
def dirItems (d : List Row) (dir : Row → Bool) (s : String) : List Row :=
  d.filter (fun x => dir x && (x.subcategoria == s))

/-- `values[mask].sum(axis=0)` for subcategory `s` of direction `dir`: the
accumulated monthly series of one subcategory. -/
def subcatSeries (d : List Row) (dir : Row → Bool) (s : String) : Series :=
  fun i => ((dirItems d dir s).map (fun x => (x.months i).toNum)).sum

/-- One entry of `inflow_category_totals` / `outflow_category_totals`: the
element-wise sum of the subcategory series of one category. -/
def categorySeries (d : List Row) (dir : Row → Bool) (subs : List String) : Series :=
  fun i => (subs.map (fun s => subcatSeries d dir s i)).sum

/-- `inflow_total`: element-wise sum of all inflow category totals. -/
def inflow_total (d : List Row) : Series :=
  fun i => (INFLOW_CATEGORIES.map (fun c => categorySeries d inflowMask c.2 i)).sum

/-- `outflow_total`. -/
def outflow_total (d : List Row) : Series :=
  fun i => (OUTFLOW_CATEGORIES.map (fun c => categorySeries d outflowMask c.2 i)).sum

/-- `net = inflow_total - outflow_total` (element-wise). -/
def net (d : List Row) : Series := fun i => inflow_total d i - outflow_total d i

/-- The twelve net values in chronological order (iteration order of the
`for value in net` loop). -/
def netList (d : List Row) : List ℚ := (List.finRange 12).map (fun i => net d i)

/-- The `saldo` loop of `compute_summary`: starting from `init`, append the
running total after adding each successive value. -/
def scanBalance (init : ℚ) : List ℚ → List ℚ
  | [] => []
  | v :: rest => (init + v) :: scanBalance (init + v) rest

/-- The `SALDO ACUMULADO` series: running balance starting from
`INITIAL_BALANCE`, advanced month by month by the net of that month. -/
def saldoSeries (d : List Row) : Series :=
  fun i => (scanBalance INITIAL_BALANCE (netList d)).getD i 0

/-- The inflow block of the `rows` list: each inflow category row followed by
its subcategory rows, in declaration order. -/
def inflowSection (d : List Row) : List (String × Series) :=
  INFLOW_CATEGORIES.flatMap (fun c =>
    (c.1, categorySeries d inflowMask c.2)
      :: c.2.map (fun s => (s, subcatSeries d inflowMask s)))

/-- The outflow block of the `rows` list. -/
def outflowSection (d : List Row) : List (String × Series) :=
  OUTFLOW_CATEGORIES.flatMap (fun c =>
    (c.1, categorySeries d outflowMask c.2)
      :: c.2.map (fun s => (s, subcatSeries d outflowMask s)))

/-- The `rows` list assembled by lines 277-288 of app.py, in order: running
balance, inflow total, inflow categories with their subcategories, outflow
total, outflow categories with their subcategories. -/
def reportRows (d : List Row) : List (String × Series) :=
  ("SALDO ACUMULADO", saldoSeries d)
    :: ("INFLOWS", inflow_total d)
    :: inflowSection d
    ++ ("OUTFLOWS", outflow_total d)
    :: outflowSection d

/-- Key order of the Python dict comprehension
`{name: values.values for name, values in rows}`: each distinct key once, in
first-insertion order (`seen` accumulates the keys already emitted). -/
def dictKeysAux (seen : List String) : List (String × Series) → List String
  | [] => []
  | p :: rest =>
      if seen.contains p.1 then dictKeysAux seen rest
      else p.1 :: dictKeysAux (p.1 :: seen) rest

/-- The value a Python dict holds at key `k` after all assignments in `rows`:
the last value assigned to `k` (0-series if never assigned, which cannot
happen for a key of the dict). -/
def dictLast (rows : List (String × Series)) (k : String) : Series :=
  (((rows.filter (fun p => p.1 == k)).getLast?).map Prod.snd).getD (fun _ => 0)

/-- Observable result of the dict comprehension over the whole `rows` list:
keys in first-insertion order, each holding the last value assigned to it. -/
def dictOfRows (rows : List (String × Series)) : List (String × Series) :=
  (dictKeysAux [] rows).map (fun k => (k, dictLast rows k))

/-- The DataFrame returned by `compute_summary` (one row per key of `data`,
in key insertion order), computed from the already column-filled rows. -/
def summaryRows (d : List Row) : List (String × Series) :=
  dictOfRows (reportRows d)

/-- `compute_summary(outflow_df)`.  The first component is the returned
summary (label and monthly series of each summary row, in order); the second
component is the state of the `outflow_df` of the caller after the call (the
function fills missing required columns in place). -/
def compute_summary (df : DataFrame) : List (String × Series) × DataFrame :=
  (summaryRows (fillMissing df).rows, fillMissing df)

/-- Monthly series of the summary row labelled `label` (first match; labels
are unique in the returned frame). -/
def reportValue (rep : List (String × Series)) (label : String) : Series :=
  (List.lookup label rep).getD (fun _ => 0)

/-- Labels of the `rows` list in assembly order: one label per taxonomy
occurrence, in taxonomy declaration order. -/
def taxonomyRowLabels : List String :=
  "SALDO ACUMULADO" :: "INFLOWS"
    :: INFLOW_CATEGORIES.flatMap (fun c => c.1 :: c.2)
    ++ "OUTFLOWS" :: OUTFLOW_CATEGORIES.flatMap (fun c => c.1 :: c.2)

/-- Digit list (least significant digit first) cut into groups of three. -/
def chunk3 (l : List Char) : List (List Char) :=
  match l with
  | [] => []
  | a :: as => (a :: as.take 2) :: chunk3 (as.drop 2)
termination_by l.length
decreasing_by simp [List.length_drop]; omega

/-- Digits of a nonnegative integer in groups of three from the right,
separated by dots: the effect of `f"{n:,.0f}".replace(",", ".")` once the
value is a whole number. -/
def groupDigits (n : ℕ) : String :=
  String.mk ((((chunk3 (toString n).toList.reverse).intersperse [Char.ofNat 46]).flatten).reverse)

/-- Round to the nearest integer, ties to even: the rounding used by
the fixed-point format specifier of Python, namely `.0f`. -/
def roundHalfEven (q : ℚ) : ℤ :=
  if q - ⌊q⌋ > 1 / 2 then ⌊q⌋ + 1
  else if q - ⌊q⌋ < 1 / 2 then ⌊q⌋
  else if ⌊q⌋ % 2 = 0 then ⌊q⌋ else ⌊q⌋ + 1

/-- `format_currency` (lines 211-220 of app.py) on a numeric value: scale by
1000, render 0 as a dash, otherwise group the digits of the rounded absolute
value and wrap a negative value in parentheses.  The `pd.isna` branch
(returning "") concerns the non-numeric input NaN, outside the numeric
domain quantified over here. -/
def format_currency (value : ℚ) : String :=
  let scaled := value / 1000
  if scaled = 0 then "-"
  else
    let formatted := groupDigits (roundHalfEven |scaled|).toNat
    if scaled < 0 then "(" ++ formatted ++ ")" else formatted

/-- The rendering described by the spec sentence for claim C9, stated in the
words of the spec: the value scaled by division by 1000; zero rendered as a
dash; a negative scaled value rendered in parenthesis notation around the
thousands-separated digits of its magnitude; otherwise the
thousands-separated digits of the scaled value. -/
def format_currency_spec (v : ℚ) : String :=
  if v / 1000 = 0 then "-"
  else if v / 1000 < 0 then
    "(" ++ groupDigits (roundHalfEven (-(v / 1000))).toNat ++ ")"
  else groupDigits (roundHalfEven (v / 1000)).toNat

/-- One row of the `outflow_items` SQLite table (the autoincrement id is
omitted; inserts never supply it). -/
structure StoredItem where
  entry_type : String
  category : String
  subcategory : String
  item : String
  months : Fin 12 → ℚ

/-- The `cleaned` frame built by `persist_outflow_items`: rows with a
missing `Item` are dropped (`dropna(subset=["Item"])`); unless nothing is
left, the string columns are stripped and the month cells coerced to
numbers, non-numeric values becoming 0. -/
def cleanFrame (rows : List Row) : List Row :=
  let kept := rows.filter (fun r => !r.item.isNone)
  if kept.isEmpty then []
  else kept.map (fun r =>
    { tipo := pyStrip r.tipo, categoria := pyStrip r.categoria,
      subcategoria := pyStrip r.subcategoria,
      item := some (pyStrip (r.item.getD "")),
      months := fun i => Cell.num (r.months i).toNum })

/-- The tuple inserted into the table for one cleaned row. -/
def rowToStored (r : Row) : StoredItem :=
  { entry_type := r.tipo, category := r.categoria, subcategory := r.subcategoria,
    item := r.item.getD "", months := fun i => (r.months i).toNum }

/-- `persist_outflow_items(df)`: the content of the `outflow_items` table
after the call, given its previous content `store` — a whole-table
`DELETE FROM outflow_items` followed by inserting every cleaned row. -/
def persist_outflow_items (_store : List StoredItem) (rows : List Row) :
    List StoredItem :=
  ([] : List StoredItem) ++ (cleanFrame rows).map rowToStored

/-- Column list of a well-formed line-item frame (what `load_outflow_items`
and the data editor produce). -/
def stdColumns : List String := ["Tipo", "Categoria", "Subcategoria", "Item"] ++ MONTHS

/-- A well-formed frame holding no line items. -/
def emptyDf : DataFrame := ⟨stdColumns, []⟩

/-- A frame with no columns at all (such as `pd.DataFrame()`). -/
def dfNoColumns : DataFrame := ⟨[], []⟩

/-- The scenario line item of claim C8: an Outflow under category Suppliers,
subcategory Matchday, amount 150000 in every month. -/
def matchdayRow : Row :=
  { tipo := "Outflow", categoria := "Suppliers", subcategoria := "Matchday",
    item := some "Synergia", months := fun _ => Cell.num 150000 }

/-- A frame whose only line item is `matchdayRow`. -/
def dfMatchday : DataFrame := ⟨stdColumns, [matchdayRow]⟩

/-- An Outflow line item under a subcategory that the taxonomy does not
contain. -/
def strayRow : Row :=
  { tipo := "Outflow", categoria := "Suppliers", subcategoria := "Stadium Naming",
    item := some "OneOff", months := fun _ => Cell.num 999999 }

/-- Replace every month cell that `pd.to_numeric` cannot parse, and every
missing month cell, by a literal numeric 0. -/
def sanitizeCell : Cell → Cell
  | .num q => .num q
  | .text => .num 0
  | .na => .num 0

/-- Sanitize all twelve month cells of a row. -/
def sanitizeRow (r : Row) : Row :=
  { r with months := fun i => sanitizeCell (r.months i) }


/-- The 39 distinct row labels of the returned summary frame, in key
insertion order: "Matchday" and "Merchandising" appear once, at their inflow
position. -/
def collapsedLabels : List String :=
  ["SALDO ACUMULADO", "INFLOWS", "Football Revenues", "Awards", "Broadcast", "Matchday",
   "Marketing & Commercial", "Sponsor", "Space Lease", "Fan Program", "Licensing",
   "Merchandising", "Social Medias", "OUTFLOWS", "Payroll Men’s Football", "Salary (M)",
   "Image Right", "Signing Fee (Image)", "Payroll Taxes (M)", "Professional Services (M)",
   "Merit Payments", "Payroll Youth & Women’s Football", "Salary (YW)", "Payroll Taxes (YW)",
   "Professional Services (YW)", "Payroll Corporate", "Salary (Corporate)",
   "Payroll Taxes (Corporate)", "Professional Services (Corporate)", "Other Payroll Expenses",
   "Benefits", "Suppliers", "General Suppliers", "Matchday Suppliers", "Logistics Expenses",
   "Utility Bills", "Taxes", "Football Specific Tribute (TEF)", "Other Taxes"]

theorem reportValue_saldo (d : List Row) :
    reportValue (summaryRows d) "SALDO ACUMULADO" = saldoSeries d := rfl

theorem reportValue_inflows (d : List Row) :
    reportValue (summaryRows d) "INFLOWS" = inflow_total d := rfl

theorem reportValue_outflows (d : List Row) :
    reportValue (summaryRows d) "OUTFLOWS" = outflow_total d := rfl

theorem reportValue_suppliers (d : List Row) :
    reportValue (summaryRows d) "Suppliers" =
      categorySeries d outflowMask
        ["General Suppliers", "Matchday", "Matchday Suppliers",
         "Logistics Expenses", "Utility Bills", "Merchandising"] := rfl

theorem reportValue_football_revenues (d : List Row) :
    reportValue (summaryRows d) "Football Revenues" =
      categorySeries d inflowMask
        ["Awards", "Broadcast", "Matchday", "Marketing & Commercial", "Sponsor",
         "Space Lease", "Fan Program", "Licensing", "Merchandising", "Social Medias"] := rfl

theorem reportValue_matchday (d : List Row) :
    reportValue (summaryRows d) "Matchday" = subcatSeries d outflowMask "Matchday" := rfl

theorem reportValue_general_suppliers (d : List Row) :
    reportValue (summaryRows d) "General Suppliers" = subcatSeries d outflowMask "General Suppliers" := rfl

theorem reportValue_matchday_suppliers (d : List Row) :
    reportValue (summaryRows d) "Matchday Suppliers" = subcatSeries d outflowMask "Matchday Suppliers" := rfl

theorem reportValue_logistics (d : List Row) :
    reportValue (summaryRows d) "Logistics Expenses" = subcatSeries d outflowMask "Logistics Expenses" := rfl

theorem reportValue_utility (d : List Row) :
    reportValue (summaryRows d) "Utility Bills" = subcatSeries d outflowMask "Utility Bills" := rfl

theorem scanBalance_length (init : ℚ) (l : List ℚ) :
    (scanBalance init l).length = l.length := by
  induction l generalizing init with
  | nil => rfl
  | cons v rest ih => simp [scanBalance, ih]

theorem scanBalance_getD_zero (init v : ℚ) (l : List ℚ) :
    (scanBalance init (v :: l)).getD 0 0 = init + v := rfl

theorem scanBalance_getD_succ (l : List ℚ) (init : ℚ) (k : ℕ) (hk : k + 1 < l.length) :
    (scanBalance init l).getD (k + 1) 0 = (scanBalance init l).getD k 0 + l.getD (k + 1) 0 := by
  induction l generalizing init k with
  | nil => simp at hk
  | cons v rest ih =>
    cases k with
    | zero =>
      cases rest with
      | nil => simp at hk
      | cons w rest2 => simp [scanBalance]
    | succ j =>
      have hj : j + 1 < rest.length := by simpa using hk
      simpa [scanBalance] using ih (init + v) j hj

theorem netList_length (d : List Row) : (netList d).length = 12 := by simp [netList]

theorem netList_getD (d : List Row) (k : Nat) (hk : k < 12) :
    (netList d).getD k 0 = net d ⟨k, hk⟩ := by
  interval_cases k <;> rfl

theorem subcatSeries_nil (dir : Row → Bool) (s : String) (i : Fin 12) :
    subcatSeries [] dir s i = 0 := rfl

theorem categorySeries_nil (dir : Row → Bool) (subs : List String) (i : Fin 12) :
    categorySeries [] dir subs i = 0 := by
  apply List.sum_eq_zero
  intro x hx
  simp only [List.mem_map] at hx
  obtain ⟨s, _, hs⟩ := hx
  rw [← hs]
  rfl

theorem inflow_total_nil (i : Fin 12) : inflow_total [] i = 0 := by
  apply List.sum_eq_zero
  intro x hx
  simp only [List.mem_map] at hx
  obtain ⟨c, _, hc⟩ := hx
  rw [← hc, categorySeries_nil]

theorem outflow_total_nil (i : Fin 12) : outflow_total [] i = 0 := by
  apply List.sum_eq_zero
  intro x hx
  simp only [List.mem_map] at hx
  obtain ⟨c, _, hc⟩ := hx
  rw [← hc, categorySeries_nil]

theorem net_nil (i : Fin 12) : net [] i = 0 := by
  simp [net, inflow_total_nil, outflow_total_nil]

theorem netList_nil : netList [] = List.replicate 12 0 := by
  simp [netList, net_nil]

theorem scanBalance_zeros (init : ℚ) (n : Nat) :
    scanBalance init (List.replicate n 0) = List.replicate n init := by
  induction n with
  | zero => rfl
  | succ m ih => simp [List.replicate, scanBalance, ih]

theorem saldoSeries_nil (i : Fin 12) : saldoSeries [] i = INITIAL_BALANCE := by
  unfold saldoSeries
  rw [netList_nil, scanBalance_zeros]
  fin_cases i <;> rfl

theorem flatMapCongr {α β : Type} {l : List α} {f g : α → List β}
    (h : ∀ a ∈ l, f a = g a) : l.flatMap f = l.flatMap g := by
  induction l with
  | nil => rfl
  | cons a t ih =>
    simp only [List.flatMap_cons]
    rw [h a (List.mem_cons_self a t), ih (fun x hx => h x (List.mem_cons_of_mem a hx))]

theorem categorySeries_congr {d1 d2 : List Row} {dir : Row → Bool} {subs : List String}
    (h : ∀ s ∈ subs, subcatSeries d1 dir s = subcatSeries d2 dir s) :
    categorySeries d1 dir subs = categorySeries d2 dir subs := by
  funext i
  unfold categorySeries
  congr 1
  exact List.map_congr_left (fun s hs => by rw [h s hs])

theorem inflow_total_congr {d1 d2 : List Row}
    (h : ∀ s ∈ inflowSubcatList, subcatSeries d1 inflowMask s = subcatSeries d2 inflowMask s) :
    inflow_total d1 = inflow_total d2 := by
  funext i
  unfold inflow_total
  congr 1
  apply List.map_congr_left
  intro c hc
  have : categorySeries d1 inflowMask c.2 = categorySeries d2 inflowMask c.2 :=
    categorySeries_congr (fun s hs => h s (List.mem_flatMap.mpr ⟨c, hc, hs⟩))
  rw [this]

theorem outflow_total_congr {d1 d2 : List Row}
    (h : ∀ s ∈ outflowSubcatList, subcatSeries d1 outflowMask s = subcatSeries d2 outflowMask s) :
    outflow_total d1 = outflow_total d2 := by
  funext i
  unfold outflow_total
  congr 1
  apply List.map_congr_left
  intro c hc
  have : categorySeries d1 outflowMask c.2 = categorySeries d2 outflowMask c.2 :=
    categorySeries_congr (fun s hs => h s (List.mem_flatMap.mpr ⟨c, hc, hs⟩))
  rw [this]

theorem inflowSection_congr {d1 d2 : List Row}
    (h : ∀ s ∈ inflowSubcatList, subcatSeries d1 inflowMask s = subcatSeries d2 inflowMask s) :
    inflowSection d1 = inflowSection d2 := by
  unfold inflowSection
  apply flatMapCongr
  intro c hc
  rw [categorySeries_congr (fun s hs => h s (List.mem_flatMap.mpr ⟨c, hc, hs⟩))]
  congr 1
  apply List.map_congr_left
  intro s hs
  rw [h s (List.mem_flatMap.mpr ⟨c, hc, hs⟩)]

theorem outflowSection_congr {d1 d2 : List Row}
    (h : ∀ s ∈ outflowSubcatList, subcatSeries d1 outflowMask s = subcatSeries d2 outflowMask s) :
    outflowSection d1 = outflowSection d2 := by
  unfold outflowSection
  apply flatMapCongr
  intro c hc
  rw [categorySeries_congr (fun s hs => h s (List.mem_flatMap.mpr ⟨c, hc, hs⟩))]
  congr 1
  apply List.map_congr_left
  intro s hs
  rw [h s (List.mem_flatMap.mpr ⟨c, hc, hs⟩)]

theorem summaryRows_congr {d1 d2 : List Row}
    (hI : ∀ s ∈ inflowSubcatList, subcatSeries d1 inflowMask s = subcatSeries d2 inflowMask s)
    (hO : ∀ s ∈ outflowSubcatList, subcatSeries d1 outflowMask s = subcatSeries d2 outflowMask s) :
    summaryRows d1 = summaryRows d2 := by
  have hit : inflow_total d1 = inflow_total d2 := inflow_total_congr hI
  have hot : outflow_total d1 = outflow_total d2 := outflow_total_congr hO
  have hnet : net d1 = net d2 := by
    funext i
    unfold net
    rw [hit, hot]
  have hsaldo : saldoSeries d1 = saldoSeries d2 := by
    funext i
    unfold saldoSeries netList
    rw [hnet]
  unfold summaryRows reportRows
  rw [hsaldo, hit, hot, inflowSection_congr hI, outflowSection_congr hO]

theorem subcatSeries_cons_false {r : Row} {d : List Row} {dir : Row → Bool} {s : String}
    (h : (dir r && (r.subcategoria == s)) = false) :
    subcatSeries (r :: d) dir s = subcatSeries d dir s := by
  funext i
  unfold subcatSeries dirItems
  rw [List.filter_cons]
  simp [h]

theorem summaryRows_cons_unrecognized (r : Row) (d : List Row)
    (hI : inflowMask r = true → r.subcategoria ∉ inflowSubcatList)
    (hO : outflowMask r = true → r.subcategoria ∉ outflowSubcatList) :
    summaryRows (r :: d) = summaryRows d := by
  apply summaryRows_congr
  · intro s hs
    apply subcatSeries_cons_false
    cases hm : inflowMask r with
    | false => simp
    | true =>
      have hne : r.subcategoria ≠ s := fun he => hI hm (he ▸ hs)
      simp [beq_eq_false_iff_ne, hne]
  · intro s hs
    apply subcatSeries_cons_false
    cases hm : outflowMask r with
    | false => simp
    | true =>
      have hne : r.subcategoria ≠ s := fun he => hO hm (he ▸ hs)
      simp [beq_eq_false_iff_ne, hne]

theorem toNum_sanitize (c : Cell) : (sanitizeCell c).toNum = c.toNum := by
  cases c <;> rfl

theorem subcatSeries_map_equiv {g1 g2 : Row → Row} {dir : Row → Bool}
    (hdir : ∀ x, dir (g1 x) = dir (g2 x))
    (hsub : ∀ x, (g1 x).subcategoria = (g2 x).subcategoria)
    (hval : ∀ x i, ((g1 x).months i).toNum = ((g2 x).months i).toNum)
    (d : List Row) (s : String) :
    subcatSeries (d.map g1) dir s = subcatSeries (d.map g2) dir s := by
  funext i
  induction d with
  | nil => rfl
  | cons x xs ih =>
    simp only [subcatSeries, dirItems, List.map_cons, List.filter_cons] at ih ⊢
    have hc : (dir (g1 x) && ((g1 x).subcategoria == s))
        = (dir (g2 x) && ((g2 x).subcategoria == s)) := by
      rw [hdir, hsub]
    rw [hc]
    cases h2 : (dir (g2 x) && ((g2 x).subcategoria == s)) with
    | false => simpa using ih
    | true => simp [hval x i, ih]

theorem lookup_map_keys (ks : List String) (f : String → Series) (label : String) :
    List.lookup label (ks.map (fun k => (k, f k))) =
      if label ∈ ks then some (f label) else none := by
  induction ks with
  | nil => rfl
  | cons k t ih =>
    simp only [List.map_cons, List.lookup_cons]
    by_cases h : label = k
    · simp [h]
    · have hb : (label == k) = false := beq_eq_false_iff_ne.mpr h
      simp [hb, h, ih]

theorem reportValue_cases (d : List Row) (label : String) :
    reportValue (summaryRows d) label = (fun _ => 0)
      ∨ ∃ q ∈ reportRows d, q.1 = label ∧ reportValue (summaryRows d) label = q.2 := by
  unfold reportValue summaryRows dictOfRows
  rw [lookup_map_keys]
  by_cases h : label ∈ dictKeysAux [] (reportRows d)
  · rw [if_pos h]
    unfold dictLast
    cases hL : ((reportRows d).filter (fun p => p.1 == label)).getLast? with
    | none => left; rfl
    | some q =>
      right
      have hmem : q ∈ (reportRows d).filter (fun p => p.1 == label) :=
        List.mem_of_mem_getLast? hL
      rw [List.mem_filter] at hmem
      exact ⟨q, hmem.1, by simpa using hmem.2, by simp [hL]⟩
  · rw [if_neg h]
    left
    rfl

theorem inflowSection_nil_zero (q : String × Series) (hq : q ∈ inflowSection [])
    (i : Fin 12) : q.2 i = 0 := by
  unfold inflowSection at hq
  rw [List.mem_flatMap] at hq
  obtain ⟨c, _, hc⟩ := hq
  rcases List.mem_cons.mp hc with h2 | h2
  · rw [h2]; exact categorySeries_nil _ _ i
  · rw [List.mem_map] at h2
    obtain ⟨s, _, hs⟩ := h2
    rw [← hs]
    rfl

theorem outflowSection_nil_zero (q : String × Series) (hq : q ∈ outflowSection [])
    (i : Fin 12) : q.2 i = 0 := by
  unfold outflowSection at hq
  rw [List.mem_flatMap] at hq
  obtain ⟨c, _, hc⟩ := hq
  rcases List.mem_cons.mp hc with h2 | h2
  · rw [h2]; exact categorySeries_nil _ _ i
  · rw [List.mem_map] at h2
    obtain ⟨s, _, hs⟩ := h2
    rw [← hs]
    rfl

theorem reportRows_nil_zero (q : String × Series) (hq : q ∈ reportRows [])
    (hne : q.1 ≠ "SALDO ACUMULADO") (i : Fin 12) : q.2 i = 0 := by
  unfold reportRows at hq
  rcases List.mem_append.mp hq with h1 | h2
  · rcases List.mem_cons.mp h1 with h | h1b
    · exact absurd (congrArg Prod.fst h) (by simpa using hne)
    rcases List.mem_cons.mp h1b with h | h1c
    · rw [h]; exact inflow_total_nil i
    · exact inflowSection_nil_zero q h1c i
  · rcases List.mem_cons.mp h2 with h | h2b
    · rw [h]; exact outflow_total_nil i
    · exact outflowSection_nil_zero q h2b i

theorem fillRow_nil (r : Row) : fillRow [] r = r := by
  cases r with
  | mk t c s it mo => simp [fillRow]


/-- C4: for empty line-item input (any column list, no rows), every value of
every row of the returned report is zero, except the running-balance row
`SALDO ACUMULADO`, whose twelve values all equal `INITIAL_BALANCE` (a label
absent from the report reads as the zero series). -/
theorem C4_empty_input (cols : List String) (label : String) (i : Fin 12) :
    reportValue (compute_summary ⟨cols, []⟩).1 label i =
      if label = "SALDO ACUMULADO" then INITIAL_BALANCE else 0 := by
  by_cases hl : label = "SALDO ACUMULADO"
  · rw [hl, if_pos rfl]
    show reportValue (summaryRows []) "SALDO ACUMULADO" i = INITIAL_BALANCE
    rw [reportValue_saldo]
    exact saldoSeries_nil i
  · rw [if_neg hl]
    show reportValue (summaryRows []) label i = 0
    rcases reportValue_cases [] label with h | ⟨q, hq, hql, hqv⟩
    · rw [h]
    · rw [hqv]
      exact reportRows_nil_zero q hq (by rw [hql]; exact hl) i

/-- C3: in the report returned by `compute_summary`, the running-balance row
satisfies the strict left-to-right recurrence: at month 0 it is
`INITIAL_BALANCE + Net[0]`, and at month k it is its month k-1 value plus
`Net[k]`, where `Net[i]` is the `INFLOWS` row minus the `OUTFLOWS` row at
month i. -/
theorem C3_running_balance (df : DataFrame) (k : Nat) (hk : k < 12) :
    reportValue (compute_summary df).1 "SALDO ACUMULADO" ⟨k, hk⟩ =
      (if k = 0 then INITIAL_BALANCE
       else reportValue (compute_summary df).1 "SALDO ACUMULADO" ⟨k - 1, by omega⟩)
        + (reportValue (compute_summary df).1 "INFLOWS" ⟨k, hk⟩
            - reportValue (compute_summary df).1 "OUTFLOWS" ⟨k, hk⟩) := by
  have hs : reportValue (compute_summary df).1 "SALDO ACUMULADO"
      = saldoSeries (fillMissing df).rows := reportValue_saldo _
  have hi : reportValue (compute_summary df).1 "INFLOWS"
      = inflow_total (fillMissing df).rows := reportValue_inflows _
  have ho : reportValue (compute_summary df).1 "OUTFLOWS"
      = outflow_total (fillMissing df).rows := reportValue_outflows _
  rw [hs, hi, ho]
  cases k with
  | zero =>
    rw [if_pos rfl]
    show (scanBalance INITIAL_BALANCE (netList (fillMissing df).rows)).getD 0 0 = _
    obtain ⟨v, t, hvt⟩ : ∃ v t, netList (fillMissing df).rows = v :: t := by
      cases hnl : netList (fillMissing df).rows with
      | nil =>
        have := netList_length (fillMissing df).rows
        rw [hnl] at this
        simp at this
      | cons v t => exact ⟨v, t, rfl⟩
    rw [hvt, scanBalance_getD_zero]
    congr 1
    have h0 := netList_getD (fillMissing df).rows 0 (by omega)
    rw [hvt] at h0
    simpa using h0
  | succ j =>
    rw [if_neg (Nat.succ_ne_zero j)]
    show (scanBalance INITIAL_BALANCE (netList (fillMissing df).rows)).getD (j + 1) 0 = _
    rw [scanBalance_getD_succ _ _ j (by rw [netList_length]; omega)]
    congr 1
    rw [netList_getD (fillMissing df).rows (j + 1) hk]
    rfl

/-- C5: a line item whose subcategory is not listed in the taxonomy for its
flow direction (direction matched case-insensitively after stripping
whitespace) contributes nothing: adding such an item to any input leaves the
entire returned report unchanged, and no error occurs (the function is
total). -/
theorem C5_unrecognized_excluded (df : DataFrame) (r : Row)
    (hI : inflowMask r = true → r.subcategoria ∉ inflowSubcatList)
    (hO : outflowMask r = true → r.subcategoria ∉ outflowSubcatList) :
    (compute_summary ⟨df.columns, r :: df.rows⟩).1 = (compute_summary df).1 := by
  show summaryRows (fillRow (missingColumns df.columns) r
        :: df.rows.map (fillRow (missingColumns df.columns)))
      = summaryRows (df.rows.map (fillRow (missingColumns df.columns)))
  set m := missingColumns df.columns with hm
  apply summaryRows_cons_unrecognized
  · intro h hmem
    by_cases hS : "Subcategoria" ∈ m
    · have hsub : (fillRow m r).subcategoria = "" := by simp [fillRow, hS]
      rw [hsub] at hmem
      exact (by decide : "" ∉ inflowSubcatList) hmem
    · have hsub : (fillRow m r).subcategoria = r.subcategoria := by simp [fillRow, hS]
      rw [hsub] at hmem
      by_cases hT : "Tipo" ∈ m
      · have hmask : inflowMask (fillRow m r) = false := by
          show (pyCasefold (pyStrip (fillRow m r).tipo) == "inflow") = false
          have ht : (fillRow m r).tipo = "" := by simp [fillRow, hT]
          rw [ht]
          decide
        rw [hmask] at h
        cases h
      · have hmask : inflowMask (fillRow m r) = inflowMask r := by
          show (pyCasefold (pyStrip (fillRow m r).tipo) == "inflow") = _
          have ht : (fillRow m r).tipo = r.tipo := by simp [fillRow, hT]
          rw [ht]
          rfl
        rw [hmask] at h
        exact hI h hmem
  · intro h hmem
    by_cases hS : "Subcategoria" ∈ m
    · have hsub : (fillRow m r).subcategoria = "" := by simp [fillRow, hS]
      rw [hsub] at hmem
      exact (by decide : "" ∉ outflowSubcatList) hmem
    · have hsub : (fillRow m r).subcategoria = r.subcategoria := by simp [fillRow, hS]
      rw [hsub] at hmem
      by_cases hT : "Tipo" ∈ m
      · have hmask : outflowMask (fillRow m r) = false := by
          show (pyCasefold (pyStrip (fillRow m r).tipo) == "outflow") = false
          have ht : (fillRow m r).tipo = "" := by simp [fillRow, hT]
          rw [ht]
          decide
        rw [hmask] at h
        cases h
      · have hmask : outflowMask (fillRow m r) = outflowMask r := by
          show (pyCasefold (pyStrip (fillRow m r).tipo) == "outflow") = _
          have ht : (fillRow m r).tipo = r.tipo := by simp [fillRow, hT]
          rw [ht]
          rfl
        rw [hmask] at h
        exact hO h hmem

/-- Witness for C5: a concrete Outflow item under the unknown subcategory
"Stadium Naming" with amount 999999 satisfies both hypotheses, and adding it
to the empty frame leaves the report unchanged. -/
theorem C5_witness :
    (inflowMask strayRow = true → strayRow.subcategoria ∉ inflowSubcatList)
      ∧ (outflowMask strayRow = true → strayRow.subcategoria ∉ outflowSubcatList)
      ∧ (compute_summary ⟨emptyDf.columns, strayRow :: emptyDf.rows⟩).1
          = (compute_summary emptyDf).1 :=
  ⟨by decide, by decide, C5_unrecognized_excluded emptyDf strayRow (by decide) (by decide)⟩

/-- C6: every non-numeric or missing monthly value is treated as exactly
zero: replacing all such cells of the input by literal numeric 0 yields the
same report, and no error occurs (the function is total). -/
theorem C6_nonnumeric_zero (df : DataFrame) :
    (compute_summary ⟨df.columns, df.rows.map sanitizeRow⟩).1 = (compute_summary df).1 := by
  show summaryRows ((df.rows.map sanitizeRow).map (fillRow (missingColumns df.columns)))
      = summaryRows (df.rows.map (fillRow (missingColumns df.columns)))
  rw [List.map_map]
  set m := missingColumns df.columns with hm
  apply summaryRows_congr
  · intro s _
    apply subcatSeries_map_equiv
    · intro x; rfl
    · intro x; rfl
    · intro x i
      show (if monthName i ∈ m then Cell.text else sanitizeCell (x.months i)).toNum
          = (if monthName i ∈ m then Cell.text else x.months i).toNum
      by_cases hmm : monthName i ∈ m
      · rw [if_pos hmm, if_pos hmm]
      · rw [if_neg hmm, if_neg hmm, toNum_sanitize]
  · intro s _
    apply subcatSeries_map_equiv
    · intro x; rfl
    · intro x; rfl
    · intro x i
      show (if monthName i ∈ m then Cell.text else sanitizeCell (x.months i)).toNum
          = (if monthName i ∈ m then Cell.text else x.months i).toNum
      by_cases hmm : monthName i ∈ m
      · rw [if_pos hmm, if_pos hmm]
      · rw [if_neg hmm, if_neg hmm, toNum_sanitize]

/-- Counterexample to C7: `compute_summary` is not free of side effects on
every input.  On a frame with no columns it adds the required columns to the
frame of the caller in place, so the post-call state differs from the
input. -/
theorem C7_counterexample : ¬ ((compute_summary dfNoColumns).2 = dfNoColumns) := by decide

/-- C7 (amended): `compute_summary` leaves its input unchanged whenever the
input contains every required column (`Tipo`, `Categoria`, `Subcategoria`
and the twelve month columns); determinism holds unconditionally since the
result is a function of the input alone. -/
theorem C7_pure_on_full_columns (df : DataFrame)
    (h : ∀ c ∈ required_columns, c ∈ df.columns) :
    (compute_summary df).2 = df := by
  have hm : missingColumns df.columns = [] := by
    unfold missingColumns
    rw [List.filter_eq_nil_iff]
    intro c hc
    simp [h c hc]
  show fillMissing df = df
  unfold fillMissing
  rw [hm]
  cases df with
  | mk cols rows =>
    simp only [List.append_nil]
    congr 1
    rw [List.map_congr_left (fun r _ => fillRow_nil r), List.map_id']

/-- Witness for C7 (amended): the standard empty frame has all required
columns and is left unchanged. -/
theorem C7_witness :
    (∀ c ∈ required_columns, c ∈ stdColumns) ∧ (compute_summary emptyDf).2 = emptyDf :=
  ⟨by decide, C7_pure_on_full_columns emptyDf (by decide)⟩

/-- C1 (code bug): the `rows` list is assembled with exactly one row per
taxonomy occurrence in declaration order (41 labels, "Matchday" and
"Merchandising" twice each), but the returned frame is keyed by bare label,
so for every input it has only 39 rows, with "Matchday" and "Merchandising"
once each — the claimed one-row-per-occurrence structure is lost. -/
theorem C1_one_row_per_occurrence_fails :
    (∀ df : DataFrame, (reportRows (fillMissing df).rows).map Prod.fst = taxonomyRowLabels)
      ∧ (∀ df : DataFrame, (compute_summary df).1.map Prod.fst = collapsedLabels)
      ∧ taxonomyRowLabels.count "Matchday" = 2
      ∧ taxonomyRowLabels.count "Merchandising" = 2
      ∧ taxonomyRowLabels.length = 41
      ∧ collapsedLabels.count "Matchday" = 1
      ∧ collapsedLabels.count "Merchandising" = 1
      ∧ collapsedLabels.length = 39 :=
  ⟨fun _ => rfl, fun _ => rfl, by decide, by decide, by decide, by decide, by decide, by decide⟩

/-- C8: with the single Outflow item Suppliers/Matchday worth 150000 every
month, the report has OutflowTotal = 150000 and Net = -150000 in every
month, running balance 25392000 at month 0, and 23742000 at month 11. -/
theorem C8_scenario :
    (∀ i : Fin 12, reportValue (compute_summary dfMatchday).1 "OUTFLOWS" i = 150000)
      ∧ (∀ i : Fin 12,
          reportValue (compute_summary dfMatchday).1 "INFLOWS" i
            - reportValue (compute_summary dfMatchday).1 "OUTFLOWS" i = -150000)
      ∧ reportValue (compute_summary dfMatchday).1 "SALDO ACUMULADO" ⟨0, by omega⟩ = 25392000
      ∧ reportValue (compute_summary dfMatchday).1 "SALDO ACUMULADO" ⟨11, by omega⟩ = 23742000 := by
  have hd : (fillMissing dfMatchday).rows = [matchdayRow] := by
    show [fillRow (missingColumns stdColumns) matchdayRow] = [matchdayRow]
    rw [show missingColumns stdColumns = [] from by decide, fillRow_nil]
  have hmo : ∀ j : Fin 12, matchdayRow.months j = Cell.num 150000 := fun j => rfl
  have hout : ∀ i : Fin 12, outflow_total [matchdayRow] i = 150000 := by
    intro i
    simp +decide [outflow_total, OUTFLOW_CATEGORIES, categorySeries, subcatSeries, dirItems,
      Cell.toNum, List.filter_cons, hmo]
  have hin : ∀ i : Fin 12, inflow_total [matchdayRow] i = 0 := by
    intro i
    simp +decide [inflow_total, INFLOW_CATEGORIES, categorySeries, subcatSeries, dirItems,
      Cell.toNum, List.filter_cons, hmo]
  have hnet : ∀ i : Fin 12, net [matchdayRow] i = -150000 := by
    intro i
    simp [net, hout, hin]
  have hlist : netList [matchdayRow] = List.replicate 12 (-150000) := by
    simp [netList, hnet]
  have hs : reportValue (compute_summary dfMatchday).1 "SALDO ACUMULADO"
      = saldoSeries (fillMissing dfMatchday).rows := reportValue_saldo _
  have hi : reportValue (compute_summary dfMatchday).1 "INFLOWS"
      = inflow_total (fillMissing dfMatchday).rows := reportValue_inflows _
  have ho : reportValue (compute_summary dfMatchday).1 "OUTFLOWS"
      = outflow_total (fillMissing dfMatchday).rows := reportValue_outflows _
  refine ⟨?_, ?_, ?_, ?_⟩
  · intro i
    rw [ho, hd]
    exact hout i
  · intro i
    rw [hi, ho, hd, hout i, hin i]
    norm_num
  · rw [hs, hd]
    show (scanBalance INITIAL_BALANCE (netList [matchdayRow])).getD 0 0 = 25392000
    rw [hlist]
    norm_num [scanBalance, List.replicate, INITIAL_BALANCE]
  · rw [hs, hd]
    show (scanBalance INITIAL_BALANCE (netList [matchdayRow])).getD 11 0 = 23742000
    rw [hlist]
    norm_num [scanBalance, List.replicate, INITIAL_BALANCE]

/-- C9: for every numeric value, `format_currency` renders exactly what the
spec describes: the value scaled by division by 1000, zero as a dash, a
negative scaled value in parenthesis notation, digits grouped by thousands
separators. -/
theorem C9_format_matches_spec (v : ℚ) : format_currency v = format_currency_spec v := by
  simp only [format_currency, format_currency_spec]
  by_cases h0 : v / 1000 = 0
  · simp [h0]
  · by_cases hneg : v / 1000 < 0
    · simp [h0, hneg, abs_of_neg hneg]
    · have hpos : 0 < v / 1000 := lt_of_le_of_ne (not_lt.mp hneg) (Ne.symm h0)
      simp [h0, hneg, abs_of_pos hpos]

/-- C10: whatever the previous table content, `persist_outflow_items`
replaces it with exactly the input rows whose `Item` is present, their
string fields stripped and their month cells coerced to numbers with
non-numeric values stored as zero; dropped rows are never stored and the
operation is total. -/
theorem C10_persist_replaces_with_cleaned (store : List StoredItem) (rows : List Row) :
    persist_outflow_items store rows =
      (rows.filter (fun r => r.item.isSome)).map (fun r =>
        { entry_type := pyStrip r.tipo, category := pyStrip r.categoria,
          subcategory := pyStrip r.subcategoria, item := pyStrip (r.item.getD ""),
          months := fun i => (r.months i).toNum }) := by
  simp only [persist_outflow_items, cleanFrame, List.nil_append]
  have hpred : ∀ r : Row, (!r.item.isNone) = r.item.isSome := by
    intro r
    cases r.item <;> rfl
  rw [List.filter_congr (fun r _ => hpred r)]
  by_cases h : (rows.filter (fun r => r.item.isSome)).isEmpty
  · rw [if_pos h, List.map_nil]
    rw [List.isEmpty_iff] at h
    rw [h, List.map_nil]
  · rw [if_neg h, List.map_map]
    apply List.map_congr_left
    intro r hr
    rfl

/-- C2 (code bug): with one Outflow item Suppliers/Matchday worth 150000
per month, the returned report (whose row labels are pinned by the first
conjunct) has a "Suppliers" category row of 150000 while the subcategory
rows listed under it (General Suppliers, Matchday Suppliers, Logistics
Expenses, Utility Bills) sum to 0, and a "Football Revenues" row of 0 while
its listed "Matchday" row holds 150000 — category totals do not equal the
sum of the subcategory rows listed under them. -/
theorem C2_category_total_not_sum_of_listed_rows :
    ((compute_summary dfMatchday).1.map Prod.fst = collapsedLabels)
      ∧ (∀ i : Fin 12, reportValue (compute_summary dfMatchday).1 "Suppliers" i = 150000)
      ∧ (∀ i : Fin 12,
          reportValue (compute_summary dfMatchday).1 "General Suppliers" i
            + reportValue (compute_summary dfMatchday).1 "Matchday Suppliers" i
            + reportValue (compute_summary dfMatchday).1 "Logistics Expenses" i
            + reportValue (compute_summary dfMatchday).1 "Utility Bills" i = 0)
      ∧ (∀ i : Fin 12, reportValue (compute_summary dfMatchday).1 "Football Revenues" i = 0)
      ∧ (∀ i : Fin 12, reportValue (compute_summary dfMatchday).1 "Matchday" i = 150000)
      ∧ reportValue (compute_summary dfMatchday).1 "Suppliers" ⟨0, by omega⟩
          ≠ reportValue (compute_summary dfMatchday).1 "General Suppliers" ⟨0, by omega⟩
            + reportValue (compute_summary dfMatchday).1 "Matchday Suppliers" ⟨0, by omega⟩
            + reportValue (compute_summary dfMatchday).1 "Logistics Expenses" ⟨0, by omega⟩
            + reportValue (compute_summary dfMatchday).1 "Utility Bills" ⟨0, by omega⟩ := by
  have hd : (fillMissing dfMatchday).rows = [matchdayRow] := by
    show [fillRow (missingColumns stdColumns) matchdayRow] = [matchdayRow]
    rw [show missingColumns stdColumns = [] from by decide, fillRow_nil]
  have hmo : ∀ j : Fin 12, matchdayRow.months j = Cell.num 150000 := fun j => rfl
  have hsup : reportValue (compute_summary dfMatchday).1 "Suppliers"
      = categorySeries (fillMissing dfMatchday).rows outflowMask
          ["General Suppliers", "Matchday", "Matchday Suppliers",
           "Logistics Expenses", "Utility Bills", "Merchandising"] := reportValue_suppliers _
  have hfr : reportValue (compute_summary dfMatchday).1 "Football Revenues"
      = categorySeries (fillMissing dfMatchday).rows inflowMask
          ["Awards", "Broadcast", "Matchday", "Marketing & Commercial", "Sponsor",
           "Space Lease", "Fan Program", "Licensing", "Merchandising", "Social Medias"] :=
    reportValue_football_revenues _
  have hmd : reportValue (compute_summary dfMatchday).1 "Matchday"
      = subcatSeries (fillMissing dfMatchday).rows outflowMask "Matchday" := reportValue_matchday _
  have hgs : reportValue (compute_summary dfMatchday).1 "General Suppliers"
      = subcatSeries (fillMissing dfMatchday).rows outflowMask "General Suppliers" :=
    reportValue_general_suppliers _
  have hms : reportValue (compute_summary dfMatchday).1 "Matchday Suppliers"
      = subcatSeries (fillMissing dfMatchday).rows outflowMask "Matchday Suppliers" :=
    reportValue_matchday_suppliers _
  have hlo : reportValue (compute_summary dfMatchday).1 "Logistics Expenses"
      = subcatSeries (fillMissing dfMatchday).rows outflowMask "Logistics Expenses" :=
    reportValue_logistics _
  have hub : reportValue (compute_summary dfMatchday).1 "Utility Bills"
      = subcatSeries (fillMissing dfMatchday).rows outflowMask "Utility Bills" :=
    reportValue_utility _
  have hsupv : ∀ i : Fin 12, categorySeries [matchdayRow] outflowMask
      ["General Suppliers", "Matchday", "Matchday Suppliers",
       "Logistics Expenses", "Utility Bills", "Merchandising"] i = 150000 := by
    intro i
    simp +decide [categorySeries, subcatSeries, dirItems, Cell.toNum, List.filter_cons, hmo]
  have hfrv : ∀ i : Fin 12, categorySeries [matchdayRow] inflowMask
      ["Awards", "Broadcast", "Matchday", "Marketing & Commercial", "Sponsor",
       "Space Lease", "Fan Program", "Licensing", "Merchandising", "Social Medias"] i = 0 := by
    intro i
    simp +decide [categorySeries, subcatSeries, dirItems, Cell.toNum, List.filter_cons, hmo]
  have hmdv : ∀ i : Fin 12, subcatSeries [matchdayRow] outflowMask "Matchday" i = 150000 := by
    intro i
    simp +decide [subcatSeries, dirItems, Cell.toNum, List.filter_cons, hmo]
  have hzero : ∀ s ∈ ["General Suppliers", "Matchday Suppliers", "Logistics Expenses",
      "Utility Bills"], ∀ i : Fin 12, subcatSeries [matchdayRow] outflowMask s i = 0 := by
    intro s hs i
    fin_cases hs <;>
      simp +decide [subcatSeries, dirItems, Cell.toNum, List.filter_cons, hmo]
  refine ⟨rfl, ?_, ?_, ?_, ?_, ?_⟩
  · intro i
    rw [hsup, hd]
    exact hsupv i
  · intro i
    rw [hgs, hms, hlo, hub, hd]
    rw [hzero "General Suppliers" (by simp) i, hzero "Matchday Suppliers" (by simp) i,
        hzero "Logistics Expenses" (by simp) i, hzero "Utility Bills" (by simp) i]
    norm_num
  · intro i
    rw [hfr, hd]
    exact hfrv i
  · intro i
    rw [hmd, hd]
    exact hmdv i
  · rw [hsup, hgs, hms, hlo, hub, hd]
    rw [hsupv _, hzero "General Suppliers" (by simp) _, hzero "Matchday Suppliers" (by simp) _,
        hzero "Logistics Expenses" (by simp) _, hzero "Utility Bills" (by simp) _]
    norm_num

/-- Witness for C3: the recurrence instantiated at the empty frame and
month 0. -/
theorem C3_witness :
    (0 : Nat) < 12 ∧
    reportValue (compute_summary emptyDf).1 "SALDO ACUMULADO" ⟨0, by omega⟩ =
      (if 0 = 0 then INITIAL_BALANCE
       else reportValue (compute_summary emptyDf).1 "SALDO ACUMULADO" ⟨0 - 1, by omega⟩)
        + (reportValue (compute_summary emptyDf).1 "INFLOWS" ⟨0, by omega⟩
            - reportValue (compute_summary emptyDf).1 "OUTFLOWS" ⟨0, by omega⟩) :=
  ⟨by omega, C3_running_balance emptyDf 0 (by omega)⟩
end CashFlow
